import Mathlib

/-!
Shallow embedding of the ACL reconciliation controller of provider-kafka
(src/internal/controller/acl/acl.go) together with a spec-faithful model of
the helper package internal/clients/kafka/acl (Generate, CompareAcls, Diff,
ConvertToJSON, ConvertFromJSON, List, Create, Delete), whose source is not
part of src/ and is therefore modelled from the specification.
-/

namespace v1alpha1

/-- Declared specification of one ACL rule (the managed resource's
Spec.ForProvider).  Field set follows section 3 of the spec: principal, host,
operation, permission type, resource type, resource name, resource pattern
type, all carried as strings. -/
structure AccessControlListParameters where
  ResourcePrincipal : String
  ResourceHost : String
  ResourceOperation : String
  ResourcePermissionType : String
  ResourceType : String
  ResourceName : String
  ResourcePatternTypeFilter : String
deriving DecidableEq, Repr

end v1alpha1

namespace acl

/-- Canonical rule descriptor (the acl package's AccessControlList struct):
structurally identical field set to the declared specification. -/
structure AccessControlList where
  ResourcePrincipal : String
  ResourceHost : String
  ResourceOperation : String
  ResourcePermissionType : String
  ResourceType : String
  ResourceName : String
  ResourcePatternTypeFilter : String
deriving DecidableEq, Repr

/-- Enum domain of the operation field (section 3 of the spec). -/
def operationDomain : List String :=
  ["Read", "Write", "Create", "Delete", "Alter", "Describe", "ClusterAction",
   "DescribeConfigs", "AlterConfigs", "IdempotentWrite", "All"]

/-- Enum domain of the permission type field. -/
def permissionDomain : List String := ["Allow", "Deny"]

/-- Enum domain of the resource type field. -/
def resourceTypeDomain : List String := ["Topic", "Group", "Cluster", "TransactionalId"]

/-- Enum domain of the resource pattern type field. -/
def patternTypeDomain : List String := ["Literal", "Prefixed"]

/-- Lower-case a string character by character (ASCII casing, which covers
every enum spelling). -/
def lowerStr (s : String) : String :=
  String.mk (s.data.map Char.toLower)

/-- Normalize the casing of an enum-valued string: a value matching a domain
member up to casing is replaced by the canonical spelling; anything else is
left unchanged (Generate is total and never fails). -/
def canonEnum (domain : List String) (s : String) : String :=
  match domain.find? (fun c => lowerStr c == lowerStr s) with
  | some c => c
  | none => s

/-- Modelled from the spec: Generate(spec) is a pure, total function from the
declared specification to a rule descriptor; it normalizes enum casing and
defaults an unset host to the wildcard. -/
def Generate (p : v1alpha1.AccessControlListParameters) : AccessControlList :=
  { ResourcePrincipal := p.ResourcePrincipal
    ResourceHost := if p.ResourceHost = "" then "*" else p.ResourceHost
    ResourceOperation := canonEnum operationDomain p.ResourceOperation
    ResourcePermissionType := canonEnum permissionDomain p.ResourcePermissionType
    ResourceType := canonEnum resourceTypeDomain p.ResourceType
    ResourceName := p.ResourceName
    ResourcePatternTypeFilter := canonEnum patternTypeDomain p.ResourcePatternTypeFilter }

/-- Modelled from the spec: field-wise equality over the full descriptor, no
tolerance and no case folding beyond what Generate normalized. -/
def CompareAcls (extname observed : AccessControlList) : Bool :=
  extname == observed

/-- The seven fields of a rule descriptor, used to state diff properties. -/
inductive AclField where
  | principal
  | host
  | operation
  | permissionType
  | resourceType
  | resourceName
  | patternTypeFilter
deriving DecidableEq, Repr

/-- All seven descriptor fields in canonical order. -/
def aclFields : List AclField :=
  [.principal, .host, .operation, .permissionType, .resourceType,
   .resourceName, .patternTypeFilter]

/-- Human-readable name of a descriptor field. -/
def fieldName : AclField → String
  | .principal => "ResourcePrincipal"
  | .host => "ResourceHost"
  | .operation => "ResourceOperation"
  | .permissionType => "ResourcePermissionType"
  | .resourceType => "ResourceType"
  | .resourceName => "ResourceName"
  | .patternTypeFilter => "ResourcePatternTypeFilter"

/-- Projection of a descriptor field. -/
def fieldProj : AclField → AccessControlList → String
  | .principal, a => a.ResourcePrincipal
  | .host, a => a.ResourceHost
  | .operation, a => a.ResourceOperation
  | .permissionType, a => a.ResourcePermissionType
  | .resourceType, a => a.ResourceType
  | .resourceName, a => a.ResourceName
  | .patternTypeFilter, a => a.ResourcePatternTypeFilter

/-- One diff message: names the field, the expected value (from the recorded
descriptor, treated as authoritative) and the actual value. -/
def diffMsg (field expected actual : String) : String :=
  field ++ ": expected " ++ expected ++ ", found " ++ actual

/-- Modelled from the spec: Diff(a, b) produces, for every field where a and b
differ, one message naming the field, the expected value (from a) and the
actual value (from b), in canonical field order. -/
def Diff (a b : AccessControlList) : List String :=
  (aclFields.filter (fun f => fieldProj f a != fieldProj f b)).map
    (fun f => diffMsg (fieldName f) (fieldProj f a) (fieldProj f b))

/-- Well-formedness of a descriptor: every enum-valued field lies in its
domain (the spec calls such a descriptor well-formed; Encode rejects any
other). -/
def validAcl (a : AccessControlList) : Bool :=
  operationDomain.contains a.ResourceOperation &&
  permissionDomain.contains a.ResourcePermissionType &&
  resourceTypeDomain.contains a.ResourceType &&
  patternTypeDomain.contains a.ResourcePatternTypeFilter

/-- Serialize one string field into the token: a unary length prefix, a colon,
then the raw characters.  Deterministic and unambiguous for arbitrary field
contents. -/
def encF (s : List Char) : List Char :=
  List.replicate s.length '#' ++ ':' :: s

/-- Parse one serialized field: count the leading length marks, expect a
colon, then take exactly that many characters; anything else is malformed. -/
def decFAux : Nat → List Char → Option (List Char × List Char)
  | k, '#' :: rest => decFAux (k + 1) rest
  | k, ':' :: rest => if k ≤ rest.length then some (rest.take k, rest.drop k) else none
  | _, _ => none

/-- Parse one serialized field starting with an empty length accumulator. -/
def decF (cs : List Char) : Option (List Char × List Char) :=
  decFAux 0 cs

/-- Modelled from the spec: the canonical serialization of a descriptor into
an opaque identity token, fields in canonical (deterministic) order. -/
def encodeAcl (a : AccessControlList) : String :=
  String.mk (encF a.ResourcePrincipal.data ++ (encF a.ResourceHost.data ++
    (encF a.ResourceOperation.data ++ (encF a.ResourcePermissionType.data ++
    (encF a.ResourceType.data ++ (encF a.ResourceName.data ++
    encF a.ResourcePatternTypeFilter.data))))))

/-- Modelled from the spec: deserialization of an identity token back into a
descriptor; returns none when the token is malformed. -/
def decodeAcl (t : String) : Option AccessControlList := do
  let (p, r1) ← decF t.data
  let (h, r2) ← decF r1
  let (op, r3) ← decF r2
  let (pt, r4) ← decF r3
  let (rt, r5) ← decF r4
  let (rn, r6) ← decF r5
  let (pat, r7) ← decF r6
  if r7 = [] then
    some { ResourcePrincipal := String.mk p, ResourceHost := String.mk h,
           ResourceOperation := String.mk op, ResourcePermissionType := String.mk pt,
           ResourceType := String.mk rt, ResourceName := String.mk rn,
           ResourcePatternTypeFilter := String.mk pat }
  else none

/-- Modelled from the spec: Encode(descriptor) is a deterministic
serialization to an identity token; it fails with an EncodingError when the
descriptor holds a field value outside its enum domain. -/
def ConvertToJSON (a : AccessControlList) : Except String String :=
  if validAcl a then Except.ok (encodeAcl a)
  else Except.error "EncodingError: descriptor field value outside its enum domain"

/-- Modelled from the spec: Decode(token) recovers the recorded descriptor;
it fails with a DecodingError when the token is malformed or was not produced
by this codec.  As in the Go convention, a failure yields no descriptor value
(the descriptor pointer is nil). -/
def ConvertFromJSON (t : String) : Except String AccessControlList :=
  match decodeAcl t with
  | some a =>
      if validAcl a then Except.ok a
      else Except.error "DecodingError: token not produced by this codec"
  | none => Except.error "DecodingError: malformed identity token"

/-- Parsing a unary length prefix: counting marks accumulates into the take
and drop counts. -/
theorem decFAux_replicate (n : Nat) : ∀ (k : Nat) (rest : List Char),
    decFAux k (List.replicate n '#' ++ ':' :: rest) =
      if k + n ≤ rest.length then some (rest.take (k + n), rest.drop (k + n)) else none := by
  induction n with
  | zero =>
      intro k rest
      simp [decFAux]
  | succ m ih =>
      intro k rest
      rw [List.replicate_succ, List.cons_append]
      have h1 : decFAux k ('#' :: (List.replicate m '#' ++ ':' :: rest)) =
          decFAux (k + 1) (List.replicate m '#' ++ ':' :: rest) := rfl
      rw [h1, ih]
      have h2 : k + 1 + m = k + (m + 1) := by omega
      rw [h2]

/-- Parsing one field of a token recovers the field and the remainder. -/
theorem decF_encF (s rest : List Char) :
    decF (encF s ++ rest) = some (s, rest) := by
  unfold decF encF
  rw [List.append_assoc, List.cons_append, decFAux_replicate]
  have hle : 0 + s.length ≤ (s ++ rest).length := by simp
  rw [if_pos hle]
  simp [List.take_left, List.drop_left]

/-- Parsing the final field of a token leaves an empty remainder. -/
theorem decF_encF_nil (s : List Char) : decF (encF s) = some (s, []) := by
  have h := decF_encF s []
  simpa using h

/-- Deserializing a serialized descriptor recovers the descriptor exactly. -/
theorem decodeAcl_encodeAcl (a : AccessControlList) : decodeAcl (encodeAcl a) = some a := by
  obtain ⟨p, h, op, pt, rt, rn, pat⟩ := a
  simp [decodeAcl, encodeAcl, decF_encF, decF_encF_nil]

end acl

namespace v1

/-- Status condition set on a managed resource by the controller (the
crossplane-runtime common conditions). -/
inductive Condition where
  | Available
  | Creating
  | Deleting
  | Unavailable
deriving DecidableEq, Repr

end v1

namespace v1alpha1

/-- The AccessControlList managed resource: its declared specification
(Spec.ForProvider), its external-name annotation (the identity token; the
empty string means no token is bound), and the Ready status condition last
set on it. -/
structure AccessControlList where
  forProvider : AccessControlListParameters
  externalName : String
  readyCondition : Option v1.Condition := none
deriving DecidableEq, Repr

end v1alpha1

/-- A managed-resource handle as received by the controller: either an
AccessControlList custom resource or a resource of some other kind (the Go
code discovers which by a dynamic type assertion). -/
inductive Managed where
  | accessControlList (cr : v1alpha1.AccessControlList)
  | other (kind : String)
deriving DecidableEq, Repr

/-- Behaviour of the Admin Gateway (the acl package's List, Create and Delete
wrappers over the Kafka admin client), modelled from the spec as an oracle:
listA answers an existence query with the matching descriptor or none (or a
transport error), createA and deleteA return an error or none. -/
structure AdminGateway where
  listA : acl.AccessControlList → Except String (Option acl.AccessControlList)
  createA : acl.AccessControlList → Option String
  deleteA : acl.AccessControlList → Option String

/-- One recorded round trip to the Admin Gateway. -/
inductive GatewayCall where
  | list (d : acl.AccessControlList)
  | create (d : acl.AccessControlList)
  | delete (d : acl.AccessControlList)
deriving DecidableEq, Repr

/-- Result record of Observe (managed.ExternalObservation). -/
structure ExternalObservation where
  ResourceExists : Bool := false
  ResourceUpToDate : Bool := false
  ResourceLateInitialized : Bool := false
deriving DecidableEq, Repr

/-- Result record of Create (managed.ExternalCreation). -/
structure ExternalCreation where
  ExternalNameAssigned : Bool := false
deriving DecidableEq, Repr

/-- Result record of Update (managed.ExternalUpdate, which carries nothing
here). -/
structure ExternalUpdate where
deriving DecidableEq, Repr

/-- Error string of the controller's kind check. -/
def errNotAccessControlList : String :=
  "managed resource is not a AccessControlList custom resource"

/-- Error prefix wrapped around a failed gateway List call. -/
def errListACL : String := "cannot List ACLs"

/-- Error string returned by Update. -/
def errUpdateNotSupported : String := "updates are not supported"

namespace external

/-- Embedding of external.Observe.  Returns none when the Go code panics (it
discards the error of ConvertFromJSON and dereferences the resulting nil
descriptor pointer), and otherwise the observation, the returned error (none
for nil), the possibly updated managed resource, and the list of Admin
Gateway calls made. -/
def Observe (gw : AdminGateway) (mg : Managed) :
    Option (ExternalObservation × Option String × Managed × List GatewayCall) :=
  match mg with
  | .other k => some ({}, some errNotAccessControlList, .other k, [])
  | .accessControlList cr =>
    if cr.externalName = "" then
      some ({ ResourceExists := false }, none, .accessControlList cr, [])
    else
      match (acl.ConvertFromJSON cr.externalName).toOption with
      | none => none
      | some extname =>
        let generated := acl.Generate cr.forProvider
        let compare := acl.CompareAcls extname generated
        let diff := acl.Diff extname generated
        if !compare then
          some ({ ResourceExists := true, ResourceUpToDate := false },
                some (String.intercalate " " diff), .accessControlList cr, [])
        else
          match gw.listA extname with
          | .error e =>
              some ({}, some (errListACL ++ ": " ++ e), .accessControlList cr,
                    [.list extname])
          | .ok none =>
              some ({ ResourceExists := false }, none, .accessControlList cr,
                    [.list extname])
          | .ok (some _) =>
              some ({ ResourceExists := true, ResourceUpToDate := true,
                      ResourceLateInitialized := false }, none,
                    .accessControlList { cr with readyCondition := some v1.Condition.Available },
                    [.list extname])

/-- Embedding of external.Create: the creation record, the returned error,
the possibly updated managed resource, and the gateway calls made. -/
def Create (gw : AdminGateway) (mg : Managed) :
    ExternalCreation × Option String × Managed × List GatewayCall :=
  match mg with
  | .other k => ({}, some errNotAccessControlList, .other k, [])
  | .accessControlList cr =>
    let generated := acl.Generate cr.forProvider
    match acl.ConvertToJSON generated with
    | .error e =>
        ({}, some ("could not convert external name to JSON: " ++ e),
         .accessControlList cr, [])
    | .ok extname =>
        if cr.externalName = "" then
          ({ ExternalNameAssigned := true }, gw.createA generated,
           .accessControlList { cr with externalName := extname }, [.create generated])
        else
          ({}, gw.createA generated, .accessControlList cr, [.create generated])

/-- Embedding of external.Update: fails unconditionally, touches nothing. -/
def Update (_gw : AdminGateway) (mg : Managed) :
    ExternalUpdate × Option String × Managed × List GatewayCall :=
  ({}, some errUpdateNotSupported, mg, [])

/-- Embedding of external.Delete: the returned error, the managed resource,
and the gateway calls made. -/
def Delete (gw : AdminGateway) (mg : Managed) :
    Option String × Managed × List GatewayCall :=
  match mg with
  | .other k => (some errNotAccessControlList, .other k, [])
  | .accessControlList cr =>
      (gw.deleteA (acl.Generate cr.forProvider), .accessControlList cr,
       [.delete (acl.Generate cr.forProvider)])

end external

/-- The declared specification of the end-to-end scenario in section 8 of the
spec. -/
def specAlice : v1alpha1.AccessControlListParameters :=
  { ResourcePrincipal := "User:alice", ResourceHost := "*", ResourceOperation := "Read",
    ResourcePermissionType := "Allow", ResourceType := "Topic", ResourceName := "orders",
    ResourcePatternTypeFilter := "Literal" }

/-- Descriptor generated from the scenario specification. -/
def dAlice : acl.AccessControlList := acl.Generate specAlice

/-- Identity token recorded for the scenario descriptor. -/
def tokenAlice : String := acl.encodeAcl dAlice

/-- The scenario specification with its operation changed to Write. -/
def specWrite : v1alpha1.AccessControlListParameters :=
  { specAlice with ResourceOperation := "Write" }

/-- A specification whose operation lies outside the enum domain. -/
def specBanana : v1alpha1.AccessControlListParameters :=
  { specAlice with ResourceOperation := "Banana" }

/-- Managed resource with no identity token bound. -/
def crUnbound : v1alpha1.AccessControlList :=
  { forProvider := specAlice, externalName := "" }

/-- Managed resource with the matching identity token bound. -/
def crBound : v1alpha1.AccessControlList :=
  { forProvider := specAlice, externalName := tokenAlice }

/-- Managed resource whose declared operation drifted after the token was
bound. -/
def crDrift : v1alpha1.AccessControlList :=
  { forProvider := specWrite, externalName := tokenAlice }

/-- Managed resource whose specification cannot be encoded. -/
def crBanana : v1alpha1.AccessControlList :=
  { forProvider := specBanana, externalName := "" }

/-- Managed resource carrying a malformed identity token. -/
def crBadToken : v1alpha1.AccessControlList :=
  { forProvider := specAlice, externalName := "x" }

/-- Gateway on which every rule is absent and every mutation succeeds. -/
def gwAbsent : AdminGateway :=
  { listA := fun _ => Except.ok none, createA := fun _ => none, deleteA := fun _ => none }

/-- Gateway on which every queried rule is present and every mutation
succeeds. -/
def gwPresent : AdminGateway :=
  { listA := fun d => Except.ok (some d), createA := fun _ => none, deleteA := fun _ => none }

/-- C1: the claim says a malformed bound token makes Observe fail with a
propagated DecodingError before comparison or any gateway call.  The code
instead discards the error of ConvertFromJSON (extname, _ := ...) and
dereferences the nil descriptor pointer, so Observe panics (modelled as
none): the DecodingError never reaches the caller. -/
theorem observe_malformed_token_panics :
    external.Observe gwAbsent (Managed.accessControlList crBadToken) = none := by
  rfl

/-- C2: with a bound token decoding to a descriptor that differs from the
freshly generated one, Observe fails with the joined field-level diff as its
error message, makes no gateway call, and the diff names every differing
field and no others. -/
theorem observe_drift (gw : AdminGateway) (cr : v1alpha1.AccessControlList)
    (d1 : acl.AccessControlList)
    (h0 : cr.externalName ≠ "")
    (h1 : acl.ConvertFromJSON cr.externalName = Except.ok d1)
    (h2 : d1 ≠ acl.Generate cr.forProvider) :
    external.Observe gw (Managed.accessControlList cr) =
      some ({ ResourceExists := true, ResourceUpToDate := false },
            some (String.intercalate " " (acl.Diff d1 (acl.Generate cr.forProvider))),
            Managed.accessControlList cr, []) ∧
    (∀ f : acl.AclField,
        acl.fieldProj f d1 ≠ acl.fieldProj f (acl.Generate cr.forProvider) →
        acl.diffMsg (acl.fieldName f) (acl.fieldProj f d1)
            (acl.fieldProj f (acl.Generate cr.forProvider))
          ∈ acl.Diff d1 (acl.Generate cr.forProvider)) ∧
    (∀ m ∈ acl.Diff d1 (acl.Generate cr.forProvider), ∃ f : acl.AclField,
        acl.fieldProj f d1 ≠ acl.fieldProj f (acl.Generate cr.forProvider) ∧
        m = acl.diffMsg (acl.fieldName f) (acl.fieldProj f d1)
              (acl.fieldProj f (acl.Generate cr.forProvider))) := by
  refine ⟨?_, ?_, ?_⟩
  · simp [external.Observe, h0, h1, Except.toOption, acl.CompareAcls, h2]
  · intro f hf
    unfold acl.Diff
    apply List.mem_map_of_mem
    apply List.mem_filter.mpr
    refine ⟨?_, ?_⟩
    · cases f <;> simp [acl.aclFields]
    · simpa [bne_iff_ne] using hf
  · intro m hm
    unfold acl.Diff at hm
    obtain ⟨f, hf, hfm⟩ := List.mem_map.mp hm
    refine ⟨f, ?_, hfm.symm⟩
    have hp := (List.mem_filter.mp hf).2
    simpa [bne_iff_ne] using hp

/-- C2 witness: the drifted scenario object triggers the drift failure. -/
theorem observe_drift_witness :
    crDrift.externalName ≠ "" ∧
    external.Observe gwAbsent (Managed.accessControlList crDrift) =
      some ({ ResourceExists := true, ResourceUpToDate := false },
            some (String.intercalate " " (acl.Diff dAlice (acl.Generate crDrift.forProvider))),
            Managed.accessControlList crDrift, []) :=
  ⟨by decide,
   (observe_drift gwAbsent crDrift dAlice (by decide) rfl (by decide)).1⟩

/-- C3: with no bound identity token, Observe returns exists=false, no error,
no state change, and zero Admin Gateway calls. -/
theorem observe_unbound (gw : AdminGateway) (cr : v1alpha1.AccessControlList)
    (h : cr.externalName = "") :
    external.Observe gw (Managed.accessControlList cr) =
      some ({ ResourceExists := false }, none, Managed.accessControlList cr, []) := by
  simp [external.Observe, h]

/-- C3 witness: the unbound scenario object short-circuits. -/
theorem observe_unbound_witness :
    crUnbound.externalName = "" ∧
    external.Observe gwAbsent (Managed.accessControlList crUnbound) =
      some ({ ResourceExists := false }, none, Managed.accessControlList crUnbound, []) :=
  ⟨rfl, observe_unbound gwAbsent crUnbound rfl⟩

/-- C4: with a bound token whose descriptor matches the freshly generated
one and a gateway reporting the rule absent, Observe returns exists=false
with no error after exactly the one existence query. -/
theorem observe_matching_absent (gw : AdminGateway) (cr : v1alpha1.AccessControlList)
    (d : acl.AccessControlList)
    (h0 : cr.externalName ≠ "")
    (h1 : acl.ConvertFromJSON cr.externalName = Except.ok d)
    (h2 : d = acl.Generate cr.forProvider)
    (h3 : gw.listA d = Except.ok none) :
    external.Observe gw (Managed.accessControlList cr) =
      some ({ ResourceExists := false }, none, Managed.accessControlList cr,
            [GatewayCall.list d]) := by
  subst h2
  simp [external.Observe, h0, h1, Except.toOption, acl.CompareAcls, h3]

/-- C4 witness: the bound scenario object against the all-absent gateway. -/
theorem observe_matching_absent_witness :
    acl.ConvertFromJSON crBound.externalName = Except.ok dAlice ∧
    external.Observe gwAbsent (Managed.accessControlList crBound) =
      some ({ ResourceExists := false }, none, Managed.accessControlList crBound,
            [GatewayCall.list dAlice]) :=
  ⟨rfl,
   observe_matching_absent gwAbsent crBound dAlice (by decide) rfl (by decide) rfl⟩

/-- C5: with a bound token whose descriptor matches the freshly generated
one and a gateway reporting the rule present, Observe returns exists=true
and upToDate=true with no error and marks the managed object available. -/
theorem observe_matching_present (gw : AdminGateway) (cr : v1alpha1.AccessControlList)
    (d d2 : acl.AccessControlList)
    (h0 : cr.externalName ≠ "")
    (h1 : acl.ConvertFromJSON cr.externalName = Except.ok d)
    (h2 : d = acl.Generate cr.forProvider)
    (h3 : gw.listA d = Except.ok (some d2)) :
    external.Observe gw (Managed.accessControlList cr) =
      some ({ ResourceExists := true, ResourceUpToDate := true,
              ResourceLateInitialized := false }, none,
            Managed.accessControlList { cr with readyCondition := some v1.Condition.Available },
            [GatewayCall.list d]) := by
  subst h2
  simp [external.Observe, h0, h1, Except.toOption, acl.CompareAcls, h3]

/-- C5 witness: the bound scenario object against the all-present gateway. -/
theorem observe_matching_present_witness :
    acl.ConvertFromJSON crBound.externalName = Except.ok dAlice ∧
    external.Observe gwPresent (Managed.accessControlList crBound) =
      some ({ ResourceExists := true, ResourceUpToDate := true,
              ResourceLateInitialized := false }, none,
            Managed.accessControlList { crBound with readyCondition := some v1.Condition.Available },
            [GatewayCall.list dAlice]) :=
  ⟨rfl,
   observe_matching_present gwPresent crBound dAlice dAlice (by decide) rfl
     (by decide) rfl⟩

/-- C6: Update fails with the unsupported-operation error for every gateway
and every managed-resource handle, changes nothing and calls the gateway
never. -/
theorem update_unsupported (gw : AdminGateway) (mg : Managed) :
    external.Update gw mg = ({}, some errUpdateNotSupported, mg, []) := rfl

/-- C7: when encoding succeeds, Create reports a token assigned exactly when
no token was previously bound, binds the encoded token only in that case
(the external-identity field is written at most once), and always submits
the generated descriptor to the gateway for creation. -/
theorem create_binds_once (gw : AdminGateway) (cr : v1alpha1.AccessControlList)
    (t : String)
    (h : acl.ConvertToJSON (acl.Generate cr.forProvider) = Except.ok t) :
    external.Create gw (Managed.accessControlList cr) =
      ({ ExternalNameAssigned := decide (cr.externalName = "") },
       gw.createA (acl.Generate cr.forProvider),
       Managed.accessControlList
         (if cr.externalName = "" then { cr with externalName := t } else cr),
       [GatewayCall.create (acl.Generate cr.forProvider)]) := by
  by_cases hc : cr.externalName = "" <;> simp [external.Create, h, hc]

/-- C7 witness: creating the unbound scenario object assigns the token. -/
theorem create_binds_once_witness :
    acl.ConvertToJSON (acl.Generate crUnbound.forProvider) = Except.ok tokenAlice ∧
    external.Create gwAbsent (Managed.accessControlList crUnbound) =
      ({ ExternalNameAssigned := decide (crUnbound.externalName = "") },
       gwAbsent.createA (acl.Generate crUnbound.forProvider),
       Managed.accessControlList
         (if crUnbound.externalName = "" then { crUnbound with externalName := tokenAlice }
          else crUnbound),
       [GatewayCall.create (acl.Generate crUnbound.forProvider)]) :=
  ⟨rfl, create_binds_once gwAbsent crUnbound tokenAlice rfl⟩

/-- C8: when encoding the generated descriptor fails, Create returns the
wrapped encoding error, binds nothing, and makes no gateway call. -/
theorem create_encoding_error (gw : AdminGateway) (cr : v1alpha1.AccessControlList)
    (e : String)
    (h : acl.ConvertToJSON (acl.Generate cr.forProvider) = Except.error e) :
    external.Create gw (Managed.accessControlList cr) =
      ({}, some ("could not convert external name to JSON: " ++ e),
       Managed.accessControlList cr, []) := by
  simp [external.Create, h]

/-- C8 witness: the out-of-domain scenario specification cannot be encoded
and leaves the managed object untouched. -/
theorem create_encoding_error_witness :
    acl.ConvertToJSON (acl.Generate crBanana.forProvider) =
      Except.error "EncodingError: descriptor field value outside its enum domain" ∧
    external.Create gwAbsent (Managed.accessControlList crBanana) =
      ({}, some ("could not convert external name to JSON: " ++
                 "EncodingError: descriptor field value outside its enum domain"),
       Managed.accessControlList crBanana, []) :=
  ⟨rfl, create_encoding_error gwAbsent crBanana _ rfl⟩

/-- C9: for every well-formed descriptor, encoding succeeds and decoding the
produced identity token yields the descriptor back. -/
theorem convert_roundtrip (a : acl.AccessControlList)
    (h : acl.validAcl a = true) :
    acl.ConvertToJSON a = Except.ok (acl.encodeAcl a) ∧
    acl.ConvertFromJSON (acl.encodeAcl a) = Except.ok a := by
  refine ⟨?_, ?_⟩
  · simp [acl.ConvertToJSON, h]
  · simp [acl.ConvertFromJSON, acl.decodeAcl_encodeAcl, h]

/-- C9 witness: round trip at the scenario descriptor. -/
theorem convert_roundtrip_witness :
    acl.validAcl dAlice = true ∧
    acl.ConvertFromJSON (acl.encodeAcl dAlice) = Except.ok dAlice :=
  ⟨by decide, (convert_roundtrip dAlice (by decide)).2⟩

/-- C10: Observe, Create and Delete reject a handle of any other kind with
the kind-check error before doing anything else (no state change, no gateway
call), while Update skips the kind check and fails with its
unsupported-operation error for every handle. -/
theorem kind_check_guards (gw : AdminGateway) (k : String) (mg : Managed) :
    external.Observe gw (Managed.other k) =
      some ({}, some errNotAccessControlList, Managed.other k, []) ∧
    external.Create gw (Managed.other k) =
      ({}, some errNotAccessControlList, Managed.other k, []) ∧
    external.Delete gw (Managed.other k) =
      (some errNotAccessControlList, Managed.other k, []) ∧
    external.Update gw mg = ({}, some errUpdateNotSupported, mg, []) :=
  ⟨rfl, rfl, rfl, rfl⟩
